import Mathlib

/-!
# VegHolic backend — shallow embedding and verification

A shallow embedding of the VegHolic grocery backend (`main.py`, `schemas.py`):
the five document collections (`user`, `product`, `address`, `cartitem`,
`order`) become lists of Lean structures, the document store's generated
ObjectIds become `Nat` identifiers drawn from a monotone counter, monetary
floats become exact rationals `ℚ`, and every endpoint handler becomes a pure
state-passing function `DB → args → DB × Except ApiError α` (an
`HTTPException` raised by the handler becomes the `.error` branch, carrying
the state as mutated so far).

Mongo collection operations are modelled faithfully: `update_one` /
`delete_one` act on the *first* matching document (`updateOneBy` /
`deleteOneBy`), `update_many` / `delete_many` on all matches (conditional
`map` / `filter`), and `insert` appends a document carrying a fresh id.
-/

namespace VegHolic

/-- Python's `round(x, ndigits=0)` on exact values: round half to even. -/
def roundHalfEven (x : ℚ) : ℤ :=
  if x - ⌊x⌋ < 1/2 then ⌊x⌋
  else if 1/2 < x - ⌊x⌋ then ⌊x⌋ + 1
  else if ⌊x⌋ % 2 = 0 then ⌊x⌋ else ⌊x⌋ + 1

/-- Python's `round(x, 2)`: round to 2 decimal places, half to even. -/
def round2 (x : ℚ) : ℚ :=
  (roundHalfEven (x * 100) : ℚ) / 100

/-- Errors raised by handlers. `notFound` is HTTP 404, `invalidArgument`
HTTP 400; `validationError` models a pydantic schema violation raised while
constructing a document inside a handler, and `internalError` an unhandled
Python exception — both surface as a 5xx, not a defined API result. -/
inductive ApiError where
  | notFound (msg : String)
  | invalidArgument (msg : String)
  | validationError (msg : String)
  | internalError (msg : String)
deriving DecidableEq, Repr

/-- `schemas.User`, plus the store-assigned `_id`. -/
structure User where
  id : Nat
  phone : String
  name : Option String := none
  email : Option String := none
  default_address_id : Option Nat := none
  token : Option String := none
deriving DecidableEq, Repr

/-- `schemas.Product`, plus the store-assigned `_id`. -/
structure Product where
  id : Nat
  name : String
  description : Option String := none
  price_per_kg : ℚ
  category : String
  image_url : Option String := none
  variants : List String := ["250g", "500g", "1kg", "2kg"]
deriving DecidableEq, Repr

/-- `schemas.Address`, plus the store-assigned `_id`. -/
structure Address where
  id : Nat
  user_id : Nat
  name : String
  mobile : String
  pincode : String
  street : String
  city : String
  is_default : Bool := false
deriving DecidableEq, Repr

/-- `schemas.CartItem`, plus the store-assigned `_id`. -/
structure CartItem where
  id : Nat
  user_id : Nat
  product_id : Nat
  product_name : String
  image_url : Option String := none
  variant : String := "1kg"
  qty : Int := 1
  price : ℚ
deriving DecidableEq, Repr

/-- `schemas.Order`, plus the store-assigned `_id` and the `created_at`
stamp. Modelled from the spec: `database.create_document` (the Record Store
adapter, not under `src/`) assigns each new document its creation time;
per §3 identifiers are store-assigned and §4.4 orders list newest-first by
creation time, so `created_at` is drawn from the same monotone counter as
the id. -/
structure Order where
  id : Nat
  created_at : Nat
  user_id : Nat
  items : List CartItem
  address_id : Nat
  payment_method : String
  total_amount : ℚ
  status : String := "Order Placed"
  eta : String := "30-45 mins"
deriving DecidableEq, Repr

/-- The document store: the five collections of `main.py`, plus the counter
from which fresh ids (and creation stamps) are drawn. -/
structure DB where
  users : List User := []
  products : List Product := []
  addresses : List Address := []
  cartitems : List CartItem := []
  orders : List Order := []
  nextId : Nat := 0
deriving DecidableEq, Repr

/-- Mongo `update_one`: rewrite the first element satisfying `p` with `f`. -/
def updateOneBy (l : List α) (p : α → Bool) (f : α → α) : List α :=
  match l with
  | [] => []
  | x :: xs => if p x then f x :: xs else x :: updateOneBy xs p f

/-- Mongo `delete_one`: remove the first element satisfying `p`. -/
def deleteOneBy (l : List α) (p : α → Bool) : List α :=
  match l with
  | [] => []
  | x :: xs => if p x then xs else x :: deleteOneBy xs p

/-- `WEIGHT_MULTIPLIER` dict of `main.py`. -/
def WEIGHT_MULTIPLIER : List (String × ℚ) :=
  [("250g", 1/4), ("500g", 1/2), ("1kg", 1), ("2kg", 2)]

/-- `WEIGHT_MULTIPLIER.get(variant, 1.0)`. -/
def weightMultiplier (variant : String) : ℚ :=
  match WEIGHT_MULTIPLIER.lookup variant with
  | some m => m
  | none => 1

/-- `calc_price` of `main.py`: unit price for a variant. -/
def calc_price (price_per_kg : ℚ) (variant : String) : ℚ :=
  round2 (price_per_kg * weightMultiplier variant)

/-- Request body of `POST /api/cart/add`. -/
structure AddToCartRequest where
  user_id : Nat
  product_id : Nat
  variant : String := "1kg"
  qty : Int := 1
deriving DecidableEq, Repr

/-- The duplicate-line filter of `add_to_cart`:
`{"user_id": ..., "product_id": ..., "variant": ...}`. -/
def tripleP (payload : AddToCartRequest) (it : CartItem) : Bool :=
  it.user_id == payload.user_id && it.product_id == payload.product_id &&
    it.variant == payload.variant

/-- The `CartItemSchema(...)` document built by `add_to_cart` when no line
with the same triple exists. -/
def newCartItem (s : DB) (payload : AddToCartRequest) (prod : Product) : CartItem :=
  { id := s.nextId
    user_id := payload.user_id
    product_id := payload.product_id
    product_name := prod.name
    image_url := prod.image_url
    variant := payload.variant
    qty := payload.qty
    price := calc_price prod.price_per_kg payload.variant }

/-- `add_to_cart` of `main.py`. Looks up the product, computes the unit
price, merges into an existing line with the same
(`user_id`, `product_id`, `variant`) triple by `qty := max 1 (qty + payload.qty)`,
or inserts a new line. Building a fresh `CartItem` with `qty < 1` violates
the pydantic bound `qty ≥ 1` of `schemas.CartItem` and raises inside the
handler (`validationError`). -/
def add_to_cart (s : DB) (payload : AddToCartRequest) : DB × Except ApiError Nat :=
  match s.products.find? (fun p => p.id == payload.product_id) with
  | none => (s, .error (.notFound "Product not found"))
  | some prod =>
    match s.cartitems.find? (tripleP payload) with
    | some existing =>
      let new_qty := max 1 (existing.qty + payload.qty)
      let items' := updateOneBy s.cartitems (fun it => it.id == existing.id)
        (fun it => { it with qty := new_qty })
      let s' := { s with cartitems := items' }
      (s', .ok existing.id)
    | none =>
      if payload.qty < 1 then
        (s, .error (.validationError "CartItem.qty must be >= 1"))
      else
        let item := newCartItem s payload prod
        ({ s with cartitems := s.cartitems ++ [item], nextId := s.nextId + 1 },
         .ok item.id)

/-- `update_cart_qty` of `main.py` (`POST /api/cart/{item_id}/qty`):
reject `qty < 1`, else `update_one` on the line and 404 when nothing
matched. -/
def update_cart_qty (s : DB) (item_id : Nat) (qty : Int) : DB × Except ApiError Unit :=
  if qty < 1 then
    (s, .error (.invalidArgument "Quantity must be >= 1"))
  else
    let matched := s.cartitems.any (fun it => it.id == item_id)
    let items' := updateOneBy s.cartitems (fun it => it.id == item_id)
      (fun it => { it with qty := qty })
    let s' := { s with cartitems := items' }
    if matched then (s', .ok ()) else (s', .error (.notFound "Cart item not found"))

/-- `remove_cart_item` of `main.py` (`DELETE /api/cart/{item_id}`). -/
def remove_cart_item (s : DB) (item_id : Nat) : DB × Except ApiError Unit :=
  let matched := s.cartitems.any (fun it => it.id == item_id)
  let s' := { s with cartitems := deleteOneBy s.cartitems (fun it => it.id == item_id) }
  if matched then (s', .ok ()) else (s', .error (.notFound "Cart item not found"))

/-- Request body of `POST /api/addresses` (`AddressCreate` = the
`Address` schema without the store-assigned id). -/
structure AddressCreate where
  user_id : Nat
  name : String
  mobile : String
  pincode : String
  street : String
  city : String
  is_default : Bool := false
deriving DecidableEq, Repr

/-- The address document inserted by `create_address`. -/
def newAddress (s : DB) (payload : AddressCreate) : Address :=
  { id := s.nextId
    user_id := payload.user_id
    name := payload.name
    mobile := payload.mobile
    pincode := payload.pincode
    street := payload.street
    city := payload.city
    is_default := payload.is_default }

/-- `create_address` of `main.py`: insert the address; when `is_default`,
clear `is_default` on every *other* address of that user (`update_many`
with `_id ≠ new id`) and point `user.default_address_id` at the new
address. -/
def create_address (s : DB) (payload : AddressCreate) : DB × Except ApiError Nat :=
  let addr := newAddress s payload
  let s1 := { s with addresses := s.addresses ++ [addr], nextId := s.nextId + 1 }
  if payload.is_default then
    let addrs2 := s1.addresses.map (fun a =>
      if a.user_id == payload.user_id && a.id != addr.id then
        { a with is_default := false } else a)
    let s2 := { s1 with addresses := addrs2 }
    let users3 := updateOneBy s2.users (fun u => u.id == payload.user_id)
      (fun u => { u with default_address_id := some addr.id })
    let s3 := { s2 with users := users3 }
    (s3, .ok addr.id)
  else
    (s1, .ok addr.id)

/-- The raw `payload: dict` of `PATCH /api/addresses/{address_id}`: any
subset of the `Address` fields may be present. -/
structure AddressPatch where
  user_id : Option Nat := none
  name : Option String := none
  mobile : Option String := none
  pincode : Option String := none
  street : Option String := none
  city : Option String := none
  is_default : Option Bool := none
deriving DecidableEq, Repr

/-- `if not payload:` — the patch dict is empty. -/
def AddressPatch.isEmpty (p : AddressPatch) : Bool :=
  p.user_id == none && p.name == none && p.mobile == none && p.pincode == none &&
    p.street == none && p.city == none && p.is_default == none

/-- Mongo `$set` with the patch dict: overwrite exactly the present fields. -/
def AddressPatch.apply (p : AddressPatch) (a : Address) : Address :=
  { a with
    user_id := p.user_id.getD a.user_id
    name := p.name.getD a.name
    mobile := p.mobile.getD a.mobile
    pincode := p.pincode.getD a.pincode
    street := p.street.getD a.street
    city := p.city.getD a.city
    is_default := p.is_default.getD a.is_default }

/-- `update_address` of `main.py`: no-op on an empty patch; else
`update_one` with `$set: payload`; then, when `payload.get("is_default")`
is truthy, re-read the address and propagate default-exclusivity keyed off
its (possibly patched) `user_id`. -/
def update_address (s : DB) (address_id : Nat) (payload : AddressPatch) :
    DB × Except ApiError Unit :=
  if payload.isEmpty then (s, .ok ())
  else
    let addrs1 := updateOneBy s.addresses (fun a => a.id == address_id) payload.apply
    let s1 := { s with addresses := addrs1 }
    if payload.is_default == some true then
      match s1.addresses.find? (fun a => a.id == address_id) with
      | some addr =>
        let addrs2 := s1.addresses.map (fun a =>
          if a.user_id == addr.user_id && a.id != address_id then
            { a with is_default := false } else a)
        let s2 := { s1 with addresses := addrs2 }
        let users3 := updateOneBy s2.users (fun u => u.id == addr.user_id)
          (fun u => { u with default_address_id := some address_id })
        let s3 := { s2 with users := users3 }
        (s3, .ok ())
      | none => (s1, .ok ())
    else (s1, .ok ())

/-- `delete_address` of `main.py` (`DELETE /api/addresses/{address_id}`). -/
def delete_address (s : DB) (address_id : Nat) : DB × Except ApiError Unit :=
  let matched := s.addresses.any (fun a => a.id == address_id)
  let s' := { s with addresses := deleteOneBy s.addresses (fun a => a.id == address_id) }
  if matched then (s', .ok ()) else (s', .error (.notFound "Address not found"))

/-- `ORDER_STATUSES` of `main.py`. -/
def ORDER_STATUSES : List String := ["Order Placed", "Packed", "On The Way", "Delivered"]

/-- Per-line contribution `float(it["price"]) * int(it["qty"])` summed with
`total += ...` starting from `0.0`. -/
def cartTotal (cart : List CartItem) : ℚ :=
  cart.foldl (fun acc it => acc + it.price * (it.qty : ℚ)) 0

/-- `create_order` of `main.py`: read the user's cart, reject when empty,
sum `price × qty`, persist the order (status `ORDER_STATUSES[0]`, eta
`"30-45 mins"`, snapshot of the cart lines), then `delete_many` the user's
cart lines. -/
def create_order (s : DB) (user_id : Nat) (address_id : Nat) (payment_method : String) :
    DB × Except ApiError Nat :=
  let cart := s.cartitems.filter (fun it => it.user_id == user_id)
  if cart.isEmpty then
    (s, .error (.invalidArgument "Cart is empty"))
  else
    let order : Order :=
      { id := s.nextId
        created_at := s.nextId
        user_id := user_id
        items := cart
        address_id := address_id
        payment_method := payment_method
        total_amount := round2 (cartTotal cart)
        status := ORDER_STATUSES.getD 0 ""
        eta := "30-45 mins" }
    let s1 := { s with orders := s.orders ++ [order], nextId := s.nextId + 1 }
    let s2 := { s1 with cartitems := s1.cartitems.filter (fun it => !(it.user_id == user_id)) }
    (s2, .ok order.id)

/-- "Newer or equally new": the comparison behind `sort("created_at", -1)`. -/
def createdDesc (a b : Order) : Prop := b.created_at ≤ a.created_at

instance : DecidableRel createdDesc :=
  fun a b => inferInstanceAs (Decidable (b.created_at ≤ a.created_at))

instance : IsTotal Order createdDesc :=
  ⟨fun a b => (Nat.le_total b.created_at a.created_at).imp id id⟩

instance : IsTrans Order createdDesc :=
  ⟨fun _ _ _ hab hbc => Nat.le_trans hbc hab⟩

/-- Modelled from the spec: the Record Store's
`findMany(collection, filter, sort)` (`database.get_documents` is not under
`src/`); `find(...).sort("created_at", -1)` returns the matching documents
ordered newest-first by creation stamp. -/
def sortByCreatedDesc (l : List Order) : List Order :=
  l.insertionSort createdDesc

/-- `list_orders` of `main.py` (`GET /api/orders`): the user's orders,
newest first. -/
def list_orders (s : DB) (user_id : Nat) : List Order :=
  sortByCreatedDesc (s.orders.filter (fun o => o.user_id == user_id))

/-- `get_order` of `main.py` (`GET /api/orders/{order_id}`). -/
def get_order (s : DB) (order_id : Nat) : DB × Except ApiError Order :=
  match s.orders.find? (fun o => o.id == order_id) with
  | none => (s, .error (.notFound "Order not found"))
  | some o => (s, .ok o)

/-- The tracking view returned by `track_order`. -/
structure Tracking where
  status : String
  steps : List String
  active_index : Nat
  eta : String
  lat : ℚ
  lng : ℚ
deriving DecidableEq, Repr

/-- `track_order` of `main.py` (`GET /api/orders/{order_id}/track`):
404 when the order is absent; otherwise `ORDER_STATUSES.index(status)` —
an *unguarded* lookup: a status outside the list raises `ValueError`,
an unhandled internal error (no `try/except` here, unlike
`advance_order`). -/
def track_order (s : DB) (order_id : Nat) : DB × Except ApiError Tracking :=
  match s.orders.find? (fun o => o.id == order_id) with
  | none => (s, .error (.notFound "Order not found"))
  | some o =>
    match ORDER_STATUSES.indexOf? o.status with
    | none => (s, .error (.internalError "ValueError: not in list"))
    | some i =>
      (s, .ok { status := o.status
                steps := ORDER_STATUSES
                active_index := i
                eta := o.eta
                lat := 12.9716
                lng := 77.5946 })

/-- The status written by one `advance_order` step:
`ORDER_STATUSES[min(idx + 1, len - 1)]` where `idx` is the current
status's index, taken as `0` when the lookup raises `ValueError`. -/
def nextStatusOf (status : String) : String :=
  let idx := (ORDER_STATUSES.indexOf? status).getD 0
  ORDER_STATUSES.getD (min (idx + 1) (ORDER_STATUSES.length - 1)) ""

/-- `advance_order` of `main.py` (`POST /api/orders/{order_id}/advance`). -/
def advance_order (s : DB) (order_id : Nat) : DB × Except ApiError String :=
  match s.orders.find? (fun o => o.id == order_id) with
  | none => (s, .error (.notFound "Order not found"))
  | some o =>
    let new_status := nextStatusOf o.status
    let orders' := updateOneBy s.orders (fun x => x.id == o.id)
      (fun x => { x with status := new_status })
    let s' := { s with orders := orders' }
    (s', .ok new_status)

/-- The store after one `advance_order` call (the response discarded). -/
def advanceState (s : DB) (order_id : Nat) : DB :=
  (advance_order s order_id).1

/-- Number of cart lines carrying a given
(`user_id`, `product_id`, `variant`) triple. -/
def tripleCount (items : List CartItem) (u p : Nat) (v : String) : Nat :=
  items.countP (fun it => it.user_id == u && it.product_id == p && it.variant == v)

/-- Number of addresses of user `u` flagged as default. -/
def defaultCount (addrs : List Address) (u : Nat) : Nat :=
  addrs.countP (fun a => a.user_id == u && a.is_default)

/-- The invariant of §3: at most one address per user has
`is_default = true`. -/
def AtMostOneDefault (addrs : List Address) : Prop :=
  ∀ u, defaultCount addrs u ≤ 1

/-- Executable form of `AtMostOneDefault` (it suffices to check the users
owning an address). -/
def atMostOneDefaultB (addrs : List Address) : Bool :=
  addrs.all (fun a => decide (defaultCount addrs a.user_id ≤ 1))

/-! ## Concrete stores used by witnesses and counterexamples -/

/-- A product and a two-line cart (one line belonging to another user)
used to exercise order creation. -/
def dbC1 : DB :=
  { cartitems :=
      [{ id := 10, user_id := 7, product_id := 1, product_name := "Tomato",
         variant := "500g", qty := 2, price := 25 },
       { id := 11, user_id := 8, product_id := 1, product_name := "Tomato",
         variant := "1kg", qty := 1, price := 50 }]
    nextId := 12 }

/-- A one-line cart used to exercise the quantity update. -/
def itemC7 : CartItem :=
  { id := 1, user_id := 9, product_id := 4, product_name := "Carrot",
    variant := "1kg", qty := 1, price := 60 }

/-- A store whose cart holds exactly `itemC7`. -/
def dbC7 : DB := { cartitems := [itemC7], nextId := 3 }

/-- A catalog product used by the cart scenarios. -/
def prodC5 : Product :=
  { id := 1, name := "Tomato", price_per_kg := 50, category := "fruits" }

/-- A store with one product and an empty cart. -/
def dbC5 : DB := { products := [prodC5], nextId := 10 }

/-- The repeated add request of the merge scenario. -/
def plC5 : AddToCartRequest := { user_id := 7, product_id := 1, variant := "500g", qty := 1 }

/-- An existing cart line with quantity 5. -/
def itemC6 : CartItem :=
  { id := 5, user_id := 2, product_id := 1, product_name := "Tomato",
    variant := "1kg", qty := 5, price := 50 }

/-- A store holding `itemC6` and its product. -/
def dbC6 : DB := { products := [prodC5], cartitems := [itemC6], nextId := 7 }

/-- A non-negative repeat add on `itemC6`'s triple. -/
def plC6 : AddToCartRequest := { user_id := 2, product_id := 1, variant := "1kg", qty := 3 }

/-- User 1's default address in the counterexample store. -/
def addrC4a : Address :=
  { id := 10, user_id := 1, name := "Home", mobile := "111", pincode := "560001",
    street := "First St", city := "Bengaluru", is_default := true }

/-- User 2's default address in the counterexample store. -/
def addrC4b : Address :=
  { id := 20, user_id := 2, name := "Work", mobile := "222", pincode := "560002",
    street := "Second St", city := "Bengaluru", is_default := true }

/-- Two users, each with exactly one default address. -/
def dbC4 : DB := { addresses := [addrC4a, addrC4b], nextId := 30 }

/-- A patch that silently re-homes an address to user 2. -/
def patchC4 : AddressPatch := { user_id := some 2 }

/-- A user owning one default address, for the invariant witness. -/
def userC4 : User := { id := 1, phone := "123" }

/-- `userC4`'s current default address. -/
def addrC4w : Address :=
  { id := 5, user_id := 1, name := "Home", mobile := "111", pincode := "560001",
    street := "First St", city := "Bengaluru", is_default := true }

/-- A store with one user and one default address. -/
def dbC4W : DB := { users := [userC4], addresses := [addrC4w], nextId := 6 }

/-- A second default address being created for `userC4`. -/
def plC4 : AddressCreate :=
  { user_id := 1, name := "Work", mobile := "111", pincode := "560002",
    street := "Second St", city := "Bengaluru", is_default := true }

/-- A patch flipping `is_default` on, leaving `user_id` alone. -/
def patchC4W : AddressPatch := { is_default := some true }

/-- A freshly created order. -/
def orderC3 : Order :=
  { id := 20, created_at := 20, user_id := 7, items := [],
    address_id := 3, payment_method := "COD", total_amount := 50,
    status := "Order Placed", eta := "30-45 mins" }

/-- A store holding one freshly created order. -/
def dbC3 : DB := { orders := [orderC3], nextId := 21 }

/-- An order whose status string is corrupt. -/
def orderC10 : Order :=
  { id := 20, created_at := 20, user_id := 7, items := [],
    address_id := 3, payment_method := "COD", total_amount := 50,
    status := "Lost In Transit", eta := "30-45 mins" }

/-- A store holding one order whose status string is corrupt. -/
def dbC10 : DB := { orders := [orderC10], nextId := 21 }

/-! ## Generic lemmas about the store primitives -/

theorem updateOneBy_nil {α : Type} (p : α → Bool) (f : α → α) :
    updateOneBy [] p f = [] := rfl

theorem updateOneBy_cons {α : Type} (p : α → Bool) (f : α → α) (a : α) (l : List α) :
    updateOneBy (a :: l) p f = if p a then f a :: l else a :: updateOneBy l p f := rfl

theorem deleteOneBy_nil {α : Type} (p : α → Bool) :
    deleteOneBy [] p = [] := rfl

theorem deleteOneBy_cons {α : Type} (p : α → Bool) (a : α) (l : List α) :
    deleteOneBy (a :: l) p = if p a then l else a :: deleteOneBy l p := rfl

theorem updateOneBy_of_find?_eq_none {α : Type} {p : α → Bool} {f : α → α}
    {l : List α} (h : l.find? p = none) : updateOneBy l p f = l := by
  induction l with
  | nil => rfl
  | cons x xs ih =>
    by_cases hx : p x = true
    · rw [List.find?_cons_of_pos _ hx] at h; exact absurd h (by simp)
    · rw [List.find?_cons_of_neg _ hx] at h
      rw [updateOneBy_cons, if_neg hx, ih h]

theorem find?_updateOneBy {α : Type} {p : α → Bool} {f : α → α}
    {l : List α} {x : α} (h : l.find? p = some x) (hf : ∀ y, p (f y) = p y) :
    (updateOneBy l p f).find? p = some (f x) := by
  induction l with
  | nil => simp at h
  | cons a xs ih =>
    by_cases ha : p a = true
    · rw [List.find?_cons_of_pos _ ha] at h
      obtain rfl : a = x := by simpa using h
      rw [updateOneBy_cons, if_pos ha, List.find?_cons_of_pos _ ((hf a).trans ha)]
    · rw [List.find?_cons_of_neg _ ha] at h
      rw [updateOneBy_cons, if_neg ha, List.find?_cons_of_neg _ ha]
      exact ih h

theorem updateOneBy_eq_self {α : Type} {p : α → Bool} {f : α → α}
    {l : List α} (h : ∀ x, l.find? p = some x → f x = x) : updateOneBy l p f = l := by
  induction l with
  | nil => rfl
  | cons a xs ih =>
    by_cases ha : p a = true
    · rw [updateOneBy_cons, if_pos ha, h a (List.find?_cons_of_pos _ ha)]
    · rw [updateOneBy_cons, if_neg ha, ih]
      intro x hx
      exact h x (by rw [List.find?_cons_of_neg _ ha, hx])

theorem updateOneBy_append_left {α : Type} {p : α → Bool} {f : α → α}
    {l₁ : List α} (l₂ : List α) (h : ∀ x ∈ l₁, ¬ p x = true) :
    updateOneBy (l₁ ++ l₂) p f = l₁ ++ updateOneBy l₂ p f := by
  induction l₁ with
  | nil => rfl
  | cons a xs ih =>
    rw [List.cons_append, updateOneBy_cons, if_neg (h a (List.mem_cons_self a xs)),
      List.cons_append, ih (fun x hx => h x (List.mem_cons_of_mem a hx))]

theorem countP_updateOneBy_of_find? {α : Type} {p q : α → Bool} {f : α → α}
    {l : List α} {x : α} (h : l.find? p = some x) (hx : q (f x) = q x) :
    (updateOneBy l p f).countP q = l.countP q := by
  induction l with
  | nil => simp at h
  | cons a xs ih =>
    by_cases ha : p a = true
    · rw [List.find?_cons_of_pos _ ha] at h
      obtain rfl : a = x := by simpa using h
      rw [updateOneBy_cons, if_pos ha]
      simp [List.countP_cons, hx]
    · rw [List.find?_cons_of_neg _ ha] at h
      rw [updateOneBy_cons, if_neg ha]
      simp [List.countP_cons, ih h]

theorem countP_updateOneBy_le {α : Type} {p q : α → Bool} {f : α → α}
    (l : List α) (h : ∀ x, p x = true → q (f x) = true → q x = true) :
    (updateOneBy l p f).countP q ≤ l.countP q := by
  induction l with
  | nil => exact Nat.le_refl _
  | cons a xs ih =>
    by_cases ha : p a = true
    · rw [updateOneBy_cons, if_pos ha]
      simp only [List.countP_cons]
      have : (if q (f a) = true then 1 else 0) ≤ (if q a = true then 1 else 0) := by
        by_cases hq : q (f a) = true
        · simp [hq, h a ha hq]
        · simp [hq]
      omega
    · rw [updateOneBy_cons, if_neg ha]
      simp only [List.countP_cons]
      omega

theorem deleteOneBy_sublist {α : Type} (p : α → Bool) (l : List α) :
    (deleteOneBy l p).Sublist l := by
  induction l with
  | nil => exact List.Sublist.refl _
  | cons a xs ih =>
    by_cases ha : p a = true
    · rw [deleteOneBy_cons, if_pos ha]
      exact List.sublist_cons_self a xs
    · rw [deleteOneBy_cons, if_neg ha]
      exact List.Sublist.cons₂ a ih

theorem map_updateOneBy {α : Type} {p : α → Bool} {f : α → α}
    (l : List α) (g : α → Nat) (hf : ∀ x, g (f x) = g x) :
    (updateOneBy l p f).map g = l.map g := by
  induction l with
  | nil => rfl
  | cons a xs ih =>
    by_cases ha : p a = true
    · rw [updateOneBy_cons, if_pos ha]
      simp [hf]
    · rw [updateOneBy_cons, if_neg ha]
      simp [ih]

/-- A `Nodup` list of keys admits at most one element per key. -/
theorem countP_key_le_one_of_nodup {α : Type} (g : α → Nat) {l : List α}
    (h : (l.map g).Nodup) (k : Nat) : l.countP (fun x => g x == k) ≤ 1 := by
  have hcount := List.nodup_iff_count_le_one.mp h k
  rw [List.count_eq_countP, List.countP_map] at hcount
  simpa [Function.comp] using hcount

/-- With `Nodup` keys, `find?` by the key of a member returns that member. -/
theorem find?_key_of_nodup {α : Type} {g : α → Nat} {l : List α}
    (h : (l.map g).Nodup) {x : α} (hx : x ∈ l) :
    l.find? (fun y => g y == g x) = some x := by
  induction l with
  | nil => simp at hx
  | cons a xs ih =>
    rw [List.map_cons, List.nodup_cons] at h
    rcases List.mem_cons.mp hx with rfl | hmem
    · exact List.find?_cons_of_pos _ (by simp)
    · have hne : g a ≠ g x := fun heq => h.1 (heq ▸ List.mem_map_of_mem g hmem)
      rw [List.find?_cons_of_neg _ (by simpa using hne)]
      exact ih h.2 hmem

theorem foldl_add_eq_sum {α : Type} (f : α → ℚ) (l : List α) (init : ℚ) :
    l.foldl (fun acc x => acc + f x) init = init + (l.map f).sum := by
  induction l generalizing init with
  | nil => simp
  | cons a xs ih => simp [ih]; ring

/-! ## Pricing -/

theorem roundHalfEven_nonneg {x : ℚ} (h : 0 ≤ x) : 0 ≤ roundHalfEven x := by
  have hf : (0 : ℤ) ≤ ⌊x⌋ := Int.floor_nonneg.mpr h
  unfold roundHalfEven
  split_ifs <;> omega

theorem round2_nonneg {x : ℚ} (h : 0 ≤ x) : 0 ≤ round2 x := by
  unfold round2
  have := roundHalfEven_nonneg (x := x * 100) (by positivity)
  positivity

theorem weightMultiplier_eq (v : String) :
    weightMultiplier v =
      if v = "250g" then 1/4 else if v = "500g" then 1/2
      else if v = "1kg" then 1 else if v = "2kg" then 2 else 1 := by
  by_cases h1 : v = "250g"
  · subst h1; rw [if_pos rfl]; rfl
  rw [if_neg h1]
  by_cases h2 : v = "500g"
  · subst h2; rw [if_pos rfl]; rfl
  rw [if_neg h2]
  by_cases h3 : v = "1kg"
  · subst h3; rw [if_pos rfl]; rfl
  rw [if_neg h3]
  by_cases h4 : v = "2kg"
  · subst h4; rw [if_pos rfl]; rfl
  rw [if_neg h4]
  have b1 : (v == "250g") = false := beq_eq_false_iff_ne.mpr h1
  have b2 : (v == "500g") = false := beq_eq_false_iff_ne.mpr h2
  have b3 : (v == "1kg") = false := beq_eq_false_iff_ne.mpr h3
  have b4 : (v == "2kg") = false := beq_eq_false_iff_ne.mpr h4
  simp [weightMultiplier, WEIGHT_MULTIPLIER, List.lookup, b1, b2, b3, b4]

/-- C8: for every `pricePerKg ≥ 0` and every variant string,
`calc_price` is non-negative (and, being a function of its two arguments,
deterministic); it equals `round(pricePerKg × m, 2)` with `m = 0.25` for
`"250g"`, `0.5` for `"500g"`, `1.0` for `"1kg"`, `2.0` for `"2kg"`, and
`m = 1.0` for every other variant string — no error on unrecognized
variants. -/
theorem calc_price_spec (p : ℚ) (v : String) (hp : 0 ≤ p) :
    0 ≤ calc_price p v ∧
    calc_price p "250g" = round2 (p * 0.25) ∧
    calc_price p "500g" = round2 (p * 0.5) ∧
    calc_price p "1kg" = round2 (p * 1) ∧
    calc_price p "2kg" = round2 (p * 2) ∧
    (v ≠ "250g" → v ≠ "500g" → v ≠ "1kg" → v ≠ "2kg" →
      calc_price p v = round2 (p * 1)) := by
  have hmul : ∀ w : String, (0 : ℚ) ≤ weightMultiplier w := by
    intro w
    rw [weightMultiplier_eq]
    split_ifs <;> norm_num
  refine ⟨round2_nonneg (mul_nonneg hp (hmul v)), ?_, ?_, ?_, ?_, ?_⟩
  · rw [calc_price, show weightMultiplier "250g" = 1/4 from rfl]
    norm_num
  · rw [calc_price, show weightMultiplier "500g" = 1/2 from rfl]
    norm_num
  · rw [calc_price, show weightMultiplier "1kg" = 1 from rfl]
  · rw [calc_price, show weightMultiplier "2kg" = 2 from rfl]
  · intro h1 h2 h3 h4
    rw [calc_price, weightMultiplier_eq, if_neg h1, if_neg h2, if_neg h3, if_neg h4]

/-- C8 witness: `calc_price` at `pricePerKg = 80` and the unrecognized
variant `"750g"`. -/
theorem calc_price_spec_witness :
    0 ≤ calc_price 80 "750g" ∧ calc_price 80 "750g" = round2 (80 * 1) :=
  ⟨(calc_price_spec 80 "750g" (by norm_num)).1,
   (calc_price_spec 80 "750g" (by norm_num)).2.2.2.2.2
     (by decide) (by decide) (by decide) (by decide)⟩

/-! ## Orders: creation -/

/-- C2: for a user whose cart has no lines, `create_order` fails with
`InvalidArgument` ("Cart is empty") and returns the state entirely
unchanged — no order document is created and no collection is modified. -/
theorem create_order_empty_cart (s : DB) (uid aid : Nat) (pm : String)
    (h : s.cartitems.filter (fun it => it.user_id == uid) = []) :
    create_order s uid aid pm = (s, .error (.invalidArgument "Cart is empty")) := by
  simp [create_order, h]

/-- C2 witness: an empty store. -/
theorem create_order_empty_cart_witness :
    create_order ({ nextId := 5 } : DB) 1 2 "COD" =
      (({ nextId := 5 } : DB), .error (.invalidArgument "Cart is empty")) :=
  create_order_empty_cart _ 1 2 "COD" rfl

/-- C1: for every user with a non-empty cart, `create_order` persists one
new order whose `total_amount` is the 2-decimal rounding of
Σ `price × qty` over the user's cart lines, whose `items` are a by-value
snapshot of exactly those lines, whose status is the first entry of
`ORDER_STATUSES` (`"Order Placed"`) and whose eta is `"30-45 mins"`; and
immediately afterwards the user's cart has no lines. -/
theorem create_order_spec (s : DB) (uid aid : Nat) (pm : String)
    (h : s.cartitems.filter (fun it => it.user_id == uid) ≠ []) :
    ∃ o : Order,
      create_order s uid aid pm =
        ({ s with
            orders := s.orders ++ [o]
            cartitems := s.cartitems.filter (fun it => !(it.user_id == uid))
            nextId := s.nextId + 1 }, .ok o.id) ∧
      o.items = s.cartitems.filter (fun it => it.user_id == uid) ∧
      o.total_amount = round2 (((s.cartitems.filter (fun it => it.user_id == uid)).map
        (fun it => it.price * (it.qty : ℚ))).sum) ∧
      o.status = "Order Placed" ∧
      ORDER_STATUSES.head? = some o.status ∧
      o.eta = "30-45 mins" ∧
      (create_order s uid aid pm).1.cartitems.filter (fun it => it.user_id == uid) = [] := by
  have hif : (s.cartitems.filter (fun it => it.user_id == uid)).isEmpty = false :=
    List.isEmpty_eq_false.mpr h
  have hmain : create_order s uid aid pm =
      ({ s with
          orders := s.orders ++
            [{ id := s.nextId
               created_at := s.nextId
               user_id := uid
               items := s.cartitems.filter (fun it => it.user_id == uid)
               address_id := aid
               payment_method := pm
               total_amount := round2 (cartTotal
                 (s.cartitems.filter (fun it => it.user_id == uid)))
               status := ORDER_STATUSES.getD 0 ""
               eta := "30-45 mins" }]
          cartitems := s.cartitems.filter (fun it => !(it.user_id == uid))
          nextId := s.nextId + 1 }, .ok s.nextId) := by
    simp only [create_order, hif, Bool.false_eq_true, if_false]
  have htot : cartTotal (s.cartitems.filter (fun it => it.user_id == uid)) =
      ((s.cartitems.filter (fun it => it.user_id == uid)).map
        (fun it => it.price * (it.qty : ℚ))).sum := by
    rw [cartTotal, foldl_add_eq_sum]
    ring
  refine ⟨_, hmain, rfl, congrArg round2 htot, rfl, rfl, rfl, ?_⟩
  rw [hmain]
  refine List.filter_eq_nil_iff.mpr ?_
  intro a ha
  have := (List.mem_filter.mp ha).2
  simp only [Bool.not_eq_true'] at this
  simp [this]

/-- C1 witness: creating an order for user 7 in `dbC1`. -/
theorem create_order_spec_witness :
    ∃ o : Order,
      create_order dbC1 7 3 "COD" =
        ({ dbC1 with
            orders := dbC1.orders ++ [o]
            cartitems := dbC1.cartitems.filter (fun it => !(it.user_id == 7))
            nextId := dbC1.nextId + 1 }, .ok o.id) ∧
      o.items = dbC1.cartitems.filter (fun it => it.user_id == 7) ∧
      o.total_amount = round2 (((dbC1.cartitems.filter (fun it => it.user_id == 7)).map
        (fun it => it.price * (it.qty : ℚ))).sum) ∧
      o.status = "Order Placed" ∧
      ORDER_STATUSES.head? = some o.status ∧
      o.eta = "30-45 mins" ∧
      (create_order dbC1 7 3 "COD").1.cartitems.filter (fun it => it.user_id == 7) = [] :=
  create_order_spec dbC1 7 3 "COD" (by decide)

/-! ## Cart: quantity update -/

/-- C7: `update_cart_qty` fails with `InvalidArgument` exactly when
`qty < 1` (leaving the state untouched); otherwise it fails with
`NotFound` exactly when no line with that id exists (again leaving the
state untouched, the vacuous `update_one` having matched nothing);
otherwise it overwrites the line's quantity with exactly `qty`. -/
theorem update_cart_qty_spec (s : DB) (iid : Nat) (q : Int) :
    (q < 1 → update_cart_qty s iid q =
      (s, .error (.invalidArgument "Quantity must be >= 1"))) ∧
    (1 ≤ q → s.cartitems.find? (fun it => it.id == iid) = none →
      update_cart_qty s iid q = (s, .error (.notFound "Cart item not found"))) ∧
    (∀ it0, 1 ≤ q → s.cartitems.find? (fun it => it.id == iid) = some it0 →
      (update_cart_qty s iid q).2 = .ok () ∧
      (update_cart_qty s iid q).1.cartitems.find? (fun it => it.id == iid) =
        some { it0 with qty := q }) := by
  refine ⟨fun hq => by simp [update_cart_qty, hq], ?_, ?_⟩
  · intro hq hnone
    have hlt : ¬ q < 1 := not_lt.mpr hq
    have hany : s.cartitems.any (fun it => it.id == iid) = false :=
      List.any_eq_false.mpr (List.find?_eq_none.mp hnone)
    simp [update_cart_qty, hlt, hany, updateOneBy_of_find?_eq_none hnone]
  · intro it0 hq hsome
    have hlt : ¬ q < 1 := not_lt.mpr hq
    have hp0 : (it0.id == iid) = true := by simpa using List.find?_some hsome
    have hany : s.cartitems.any (fun it => it.id == iid) = true :=
      List.any_eq_true.mpr ⟨it0, List.mem_of_find?_eq_some hsome, hp0⟩
    constructor
    · simp [update_cart_qty, hlt, hany]
    · have hfind := find?_updateOneBy (f := fun it => { it with qty := q }) hsome
        (fun y => rfl)
      simp only [update_cart_qty, hlt, if_false, hany, if_true]
      simpa using hfind

/-! ## Orders: status advancement -/

theorem advance_order_of_find? {s : DB} {oid : Nat} {o : Order}
    (h : s.orders.find? (fun x => x.id == oid) = some o) :
    advance_order s oid =
      ({ s with
          orders :=
            updateOneBy s.orders (fun x => x.id == oid)
              (fun x => { x with status := nextStatusOf o.status }) },
       .ok (nextStatusOf o.status)) := by
  have hid : o.id = oid := by simpa using List.find?_some h
  simp only [advance_order, h]
  rw [hid]

theorem find?_advanceState {s : DB} {oid : Nat} {o : Order}
    (h : s.orders.find? (fun x => x.id == oid) = some o) :
    (advanceState s oid).orders.find? (fun x => x.id == oid) =
      some { o with status := nextStatusOf o.status } := by
  rw [advanceState, advance_order_of_find? h]
  exact find?_updateOneBy h (fun y => rfl)

/-- C3: for an existing order, `advance_order` writes and returns the
status at position `min(index + 1, last)` of `ORDER_STATUSES`, the index
of an unrecognized status string taken as 0; starting from a fresh order
(`"Order Placed"`), 4 consecutive calls reach `"Delivered"` and a 5th
call is a no-op returning `"Delivered"` again with the store unchanged;
on a missing order id it fails with `NotFound`. -/
theorem advance_order_spec (s : DB) (oid : Nat) :
    (s.orders.find? (fun x => x.id == oid) = none →
      advance_order s oid = (s, .error (.notFound "Order not found"))) ∧
    (∀ o, s.orders.find? (fun x => x.id == oid) = some o →
      (advance_order s oid).2 = .ok (ORDER_STATUSES.getD
        (min ((ORDER_STATUSES.indexOf? o.status).getD 0 + 1)
          (ORDER_STATUSES.length - 1)) "") ∧
      (advance_order s oid).1.orders.find? (fun x => x.id == oid) =
        some { o with status := nextStatusOf o.status }) ∧
    (∀ o, s.orders.find? (fun x => x.id == oid) = some o →
      o.status = "Order Placed" →
      (∃ o4, (advanceState (advanceState (advanceState (advanceState s oid) oid) oid)
            oid).orders.find? (fun x => x.id == oid) = some o4 ∧
          o4.status = "Delivered") ∧
      (advance_order (advanceState (advanceState (advanceState (advanceState s oid) oid)
        oid) oid) oid).2 = .ok "Delivered" ∧
      (advance_order (advanceState (advanceState (advanceState (advanceState s oid) oid)
        oid) oid) oid).1 =
        advanceState (advanceState (advanceState (advanceState s oid) oid) oid) oid) := by
  refine ⟨?_, ?_, ?_⟩
  · intro h
    simp [advance_order, h]
  · intro o h
    refine ⟨?_, find?_advanceState h⟩
    rw [advance_order_of_find? h]
    exact rfl
  · intro o h h0
    have h1 : (advanceState s oid).orders.find? (fun x => x.id == oid) =
        some { o with status := "Packed" } := by
      have h1' := find?_advanceState h
      rw [h0] at h1'
      exact h1'
    have h2 : (advanceState (advanceState s oid) oid).orders.find?
        (fun x => x.id == oid) = some { o with status := "On The Way" } :=
      find?_advanceState h1
    have h3 : (advanceState (advanceState (advanceState s oid) oid) oid).orders.find?
        (fun x => x.id == oid) = some { o with status := "Delivered" } :=
      find?_advanceState h2
    have h4 : (advanceState (advanceState (advanceState (advanceState s oid) oid) oid)
        oid).orders.find? (fun x => x.id == oid) = some { o with status := "Delivered" } :=
      find?_advanceState h3
    refine ⟨⟨{ o with status := "Delivered" }, h4, rfl⟩, ?_, ?_⟩
    · rw [advance_order_of_find? h4]
      exact rfl
    · rw [advance_order_of_find? h4]
      have hu : updateOneBy (advanceState (advanceState (advanceState (advanceState s oid)
          oid) oid) oid).orders (fun x => x.id == oid)
          (fun x => { x with status := nextStatusOf ({ o with status := "Delivered" } : Order).status }) =
          (advanceState (advanceState (advanceState (advanceState s oid) oid) oid)
            oid).orders := by
        apply updateOneBy_eq_self
        intro x hx
        rw [h4] at hx
        obtain rfl : { o with status := "Delivered" } = x := Option.some.inj hx
        rfl
      rw [hu]

/-- C3 witness: the `NotFound` branch on an empty store, the general
formula and the 4-then-5 call scenario on `dbC3`. -/
theorem advance_order_spec_witness :
    (advance_order ({ nextId := 0 } : DB) 9 =
      (({ nextId := 0 } : DB), .error (.notFound "Order not found"))) ∧
    ((advance_order dbC3 20).2 = .ok (ORDER_STATUSES.getD
      (min ((ORDER_STATUSES.indexOf? orderC3.status).getD 0 + 1)
        (ORDER_STATUSES.length - 1)) "")) ∧
    ((advance_order (advanceState (advanceState (advanceState (advanceState dbC3 20) 20)
      20) 20) 20).2 = .ok "Delivered") :=
  ⟨(advance_order_spec ({ nextId := 0 } : DB) 9).1 rfl,
   ((advance_order_spec dbC3 20).2.1 orderC3 rfl).1,
   ((advance_order_spec dbC3 20).2.2 orderC3 rfl rfl).2.1⟩

/-! ## Cart: merging adds -/

theorem add_to_cart_of_some {s : DB} {pl : AddToCartRequest} {prod : Product}
    {existing : CartItem}
    (hprod : s.products.find? (fun p => p.id == pl.product_id) = some prod)
    (hsome : s.cartitems.find? (tripleP pl) = some existing) :
    add_to_cart s pl =
      ({ s with
          cartitems :=
            updateOneBy s.cartitems (fun it => it.id == existing.id)
              (fun it => { it with qty := max 1 (existing.qty + pl.qty) }) },
       .ok existing.id) := by
  simp only [add_to_cart, hprod, hsome]

theorem add_to_cart_of_none {s : DB} {pl : AddToCartRequest} {prod : Product}
    (hprod : s.products.find? (fun p => p.id == pl.product_id) = some prod)
    (hnone : s.cartitems.find? (tripleP pl) = none)
    (hq : ¬ pl.qty < 1) :
    add_to_cart s pl =
      ({ s with
          cartitems := s.cartitems ++ [newCartItem s pl prod]
          nextId := s.nextId + 1 },
       .ok s.nextId) := by
  simp only [add_to_cart, hprod, hnone]
  rw [if_neg hq]
  exact rfl

/-- C5: `add_to_cart` keeps the per-triple uniqueness invariant — a store
with at most one line per (`user_id`, `product_id`, `variant`) triple
still has at most one after any add — and two adds of the same triple
with `qty = 1` each, starting from a cart with no line for that triple,
leave exactly one line for that triple, with quantity 2. -/
theorem add_to_cart_merge_spec (s : DB) (pl : AddToCartRequest) :
    (∀ u p v, tripleCount s.cartitems u p v ≤ 1 →
      tripleCount (add_to_cart s pl).1.cartitems u p v ≤ 1) ∧
    (∀ prod, s.products.find? (fun x => x.id == pl.product_id) = some prod →
      s.cartitems.find? (tripleP pl) = none →
      (∀ it ∈ s.cartitems, it.id ≠ s.nextId) →
      pl.qty = 1 →
      (add_to_cart (add_to_cart s pl).1 pl).1.cartitems.filter (tripleP pl) =
        [{ newCartItem s pl prod with qty := 2 }]) := by
  constructor
  · intro u p v hle
    cases hprod : s.products.find? (fun x => x.id == pl.product_id) with
    | none => simpa [add_to_cart, hprod] using hle
    | some prod =>
      cases hfind : s.cartitems.find? (tripleP pl) with
      | some existing =>
        rw [add_to_cart_of_some hprod hfind]
        exact le_trans (countP_updateOneBy_le _ (fun x _ hq => hq)) hle
      | none =>
        by_cases hq : pl.qty < 1
        · simpa [add_to_cart, hprod, hfind, hq] using hle
        · rw [add_to_cart_of_none hprod hfind hq]
          simp only [tripleCount, List.countP_append]
          by_cases hnew : (fun it : CartItem =>
              it.user_id == u && it.product_id == p && it.variant == v)
              (newCartItem s pl prod) = true
          · obtain ⟨⟨rfl, rfl⟩, rfl⟩ : (pl.user_id = u ∧ pl.product_id = p) ∧
                pl.variant = v := by
              simpa [newCartItem] using hnew
            have hzero : s.cartitems.countP (fun it : CartItem =>
                it.user_id == pl.user_id && it.product_id == pl.product_id &&
                  it.variant == pl.variant) = 0 :=
              List.countP_eq_zero.mpr (fun a ha => List.find?_eq_none.mp hfind a ha)
            rw [hzero, List.countP_cons, List.countP_nil, if_pos hnew]
          · simp only [List.countP_cons, List.countP_nil, hnew, if_false]
            simpa [tripleCount] using hle
  · intro prod hprod hnone hfresh hq1
    have hq : ¬ pl.qty < 1 := by omega
    have e1 := add_to_cart_of_none hprod hnone hq
    rw [e1]
    have hprod1 : (s.products.find? (fun p => p.id == pl.product_id)) = some prod := hprod
    have htriple : tripleP pl (newCartItem s pl prod) = true := by
      simp [tripleP, newCartItem]
    have hfind1 : (s.cartitems ++ [newCartItem s pl prod]).find? (tripleP pl) =
        some (newCartItem s pl prod) := by
      rw [List.find?_append, hnone]
      simp [htriple]
    have e2 := add_to_cart_of_some (s := { s with
      cartitems := s.cartitems ++ [newCartItem s pl prod]
      nextId := s.nextId + 1 }) hprod1 hfind1
    rw [e2]
    show (updateOneBy (s.cartitems ++ [newCartItem s pl prod])
      (fun it => it.id == (newCartItem s pl prod).id)
      (fun it => { it with qty := max 1 ((newCartItem s pl prod).qty + pl.qty) })).filter
        (tripleP pl) = [{ newCartItem s pl prod with qty := 2 }]
    have hup : updateOneBy (s.cartitems ++ [newCartItem s pl prod])
        (fun it => it.id == (newCartItem s pl prod).id)
        (fun it => { it with qty := max 1 ((newCartItem s pl prod).qty + pl.qty) }) =
        s.cartitems ++ [{ newCartItem s pl prod with
          qty := max 1 ((newCartItem s pl prod).qty + pl.qty) }] := by
      rw [updateOneBy_append_left _ (fun x hx => by
        simpa [newCartItem] using hfresh x hx)]
      rw [updateOneBy_cons, if_pos (by simp)]
    rw [hup, List.filter_append]
    have hnil : s.cartitems.filter (tripleP pl) = [] :=
      List.filter_eq_nil_iff.mpr (List.find?_eq_none.mp hnone)
    rw [hnil]
    have : tripleP pl { newCartItem s pl prod with
        qty := max 1 ((newCartItem s pl prod).qty + pl.qty) } = true := htriple
    rw [List.nil_append, List.filter_cons, if_pos this, List.filter_nil]
    have hqty : max 1 ((newCartItem s pl prod).qty + pl.qty) = 2 := by
      simp [newCartItem, hq1]
    rw [hqty]

/-- C5 witness: two `qty = 1` adds of (user 7, Tomato, `"500g"`) in `dbC5`
leave one line with quantity 2. -/
theorem add_to_cart_merge_spec_witness :
    (tripleCount dbC5.cartitems 7 1 "500g" ≤ 1 →
      tripleCount (add_to_cart dbC5 plC5).1.cartitems 7 1 "500g" ≤ 1) ∧
    ((add_to_cart (add_to_cart dbC5 plC5).1 plC5).1.cartitems.filter (tripleP plC5) =
      [{ newCartItem dbC5 plC5 prodC5 with qty := 2 }]) :=
  ⟨fun h => ((add_to_cart_merge_spec dbC5 plC5).1 7 1 "500g") h,
   (add_to_cart_merge_spec dbC5 plC5).2 prodC5 rfl rfl (by decide) rfl⟩

/-- C6 counterexample: in `dbC6` the cart line has quantity 5; adding
`qty = -3` to the same triple stores quantity `max(1, 5 + (-3)) = 2`,
which is smaller than the existing quantity 5 — the add path *can*
decrease a stored quantity (only the floor of 1 is guaranteed). -/
theorem add_to_cart_decrease_cex :
    ((add_to_cart dbC6
        { user_id := 2, product_id := 1, variant := "1kg", qty := -3 }).1.cartitems.map
      (fun it => it.qty) = [2]) ∧ ¬ ((5 : Int) ≤ 2) := by
  decide

/-- C6 (amended): on an add matching an existing line, the stored
quantity becomes exactly `max 1 (existing.qty + qty)`: it is never below
1, and it is never below the existing quantity when the requested `qty`
is non-negative — but a negative `qty` may decrease it (down to the
floor of 1). -/
theorem add_to_cart_existing_qty_spec (s : DB) (pl : AddToCartRequest)
    (prod : Product) (existing : CartItem)
    (hprod : s.products.find? (fun x => x.id == pl.product_id) = some prod)
    (hsome : s.cartitems.find? (tripleP pl) = some existing)
    (hnodup : (s.cartitems.map (fun it => it.id)).Nodup) :
    (add_to_cart s pl).2 = .ok existing.id ∧
    (add_to_cart s pl).1.cartitems.find? (fun it => it.id == existing.id) =
      some { existing with qty := max 1 (existing.qty + pl.qty) } ∧
    1 ≤ max 1 (existing.qty + pl.qty) ∧
    (0 ≤ pl.qty → existing.qty ≤ max 1 (existing.qty + pl.qty)) := by
  have e := add_to_cart_of_some hprod hsome
  refine ⟨by rw [e], ?_, le_max_left _ _,
    fun h0 => le_trans (by omega) (le_max_right 1 (existing.qty + pl.qty))⟩
  rw [e]
  have hfind : s.cartitems.find? (fun it => it.id == existing.id) = some existing :=
    find?_key_of_nodup hnodup (List.mem_of_find?_eq_some hsome)
  exact find?_updateOneBy hfind (fun y => rfl)

/-- C6 witness: a non-negative add (`qty = 3`) on `dbC6`'s line of
quantity 5 stores `max 1 (5 + 3) = 8 ≥ 5`. -/
theorem add_to_cart_existing_qty_spec_witness :
    (add_to_cart dbC6 plC6).2 = .ok itemC6.id ∧
    (add_to_cart dbC6 plC6).1.cartitems.find? (fun it => it.id == itemC6.id) =
      some { itemC6 with qty := max 1 (itemC6.qty + plC6.qty) } ∧
    itemC6.qty ≤ max 1 (itemC6.qty + plC6.qty) :=
  ⟨(add_to_cart_existing_qty_spec dbC6 plC6 prodC5 itemC6 rfl rfl (by decide)).1,
   (add_to_cart_existing_qty_spec dbC6 plC6 prodC5 itemC6 rfl rfl (by decide)).2.1,
   (add_to_cart_existing_qty_spec dbC6 plC6 prodC5 itemC6 rfl rfl (by decide)).2.2.2
     (by decide)⟩

/-! ## Addresses: the single-default invariant -/

theorem countP_congrB {α : Type} {p q : α → Bool} {l : List α}
    (h : ∀ x ∈ l, p x = q x) : l.countP p = l.countP q := by
  induction l with
  | nil => rfl
  | cons a xs ih =>
    rw [List.countP_cons, List.countP_cons, h a (List.mem_cons_self a xs),
      ih (fun x hx => h x (List.mem_cons_of_mem a hx))]

theorem atMostOneDefaultB_iff (addrs : List Address) :
    atMostOneDefaultB addrs = true ↔ AtMostOneDefault addrs := by
  constructor
  · intro hb u
    rcases Nat.eq_zero_or_pos (defaultCount addrs u) with hz | hpos
    · omega
    · obtain ⟨a, ha, hpa⟩ := List.countP_pos_iff.mp hpos
      have hau : a.user_id = u := by
        have := (Bool.and_eq_true _ _).mp hpa
        simpa using this.1
      have := List.all_eq_true.mp hb a ha
      rw [decide_eq_true_iff] at this
      rw [← hau]
      exact this
  · intro h
    exact List.all_eq_true.mpr (fun a _ => decide_eq_true (h a.user_id))

theorem create_address_of_not_default {s : DB} {pl : AddressCreate}
    (hd : ¬ pl.is_default = true) :
    create_address s pl =
      ({ s with addresses := s.addresses ++ [newAddress s pl], nextId := s.nextId + 1 },
       .ok s.nextId) := by
  simp only [create_address, if_neg hd]
  exact rfl

theorem create_address_of_default {s : DB} {pl : AddressCreate}
    (hd : pl.is_default = true) :
    create_address s pl =
      ({ s with
          addresses :=
            (s.addresses ++ [newAddress s pl]).map (fun a =>
              if a.user_id == pl.user_id && a.id != (newAddress s pl).id then
                { a with is_default := false } else a)
          users :=
            updateOneBy s.users (fun u => u.id == pl.user_id)
              (fun u => { u with default_address_id := some (newAddress s pl).id })
          nextId := s.nextId + 1 },
       .ok s.nextId) := by
  simp only [create_address, hd]
  exact rfl

theorem update_address_of_empty {s : DB} {aid : Nat} {patch : AddressPatch}
    (he : patch.isEmpty = true) :
    update_address s aid patch = (s, .ok ()) := by
  simp only [update_address, he]
  exact rfl

theorem update_address_no_propagate {s : DB} {aid : Nat} {patch : AddressPatch}
    (he : patch.isEmpty = false)
    (hd : (patch.is_default == some true) = false) :
    update_address s aid patch =
      ({ s with addresses := updateOneBy s.addresses (fun a => a.id == aid) patch.apply },
       .ok ()) := by
  simp only [update_address, he, hd]
  exact rfl

theorem update_address_propagate_missing {s : DB} {aid : Nat} {patch : AddressPatch}
    (he : patch.isEmpty = false)
    (hd : (patch.is_default == some true) = true)
    (hnone : s.addresses.find? (fun a => a.id == aid) = none) :
    update_address s aid patch = (s, .ok ()) := by
  have h1 : updateOneBy s.addresses (fun a => a.id == aid) patch.apply = s.addresses :=
    updateOneBy_of_find?_eq_none hnone
  simp only [update_address, he, hd, h1, hnone]
  exact rfl

theorem update_address_propagate {s : DB} {aid : Nat} {patch : AddressPatch} {a0 : Address}
    (he : patch.isEmpty = false)
    (hd : (patch.is_default == some true) = true)
    (hfound : s.addresses.find? (fun a => a.id == aid) = some a0) :
    update_address s aid patch =
      ({ s with
          addresses :=
            (updateOneBy s.addresses (fun a => a.id == aid) patch.apply).map (fun a =>
              if a.user_id == (patch.apply a0).user_id && a.id != aid then
                { a with is_default := false } else a)
          users :=
            updateOneBy s.users (fun u => u.id == (patch.apply a0).user_id)
              (fun u => { u with default_address_id := some aid }) },
       .ok ()) := by
  have h1 : (updateOneBy s.addresses (fun a => a.id == aid) patch.apply).find?
      (fun a => a.id == aid) = some (patch.apply a0) :=
    find?_updateOneBy hfound (fun y => rfl)
  simp only [update_address, he, hd, h1]
  exact rfl

theorem delete_address_addresses (s : DB) (aid : Nat) :
    (delete_address s aid).1.addresses = deleteOneBy s.addresses (fun a => a.id == aid) := by
  simp only [delete_address]
  by_cases hm : s.addresses.any (fun a => a.id == aid) = true
  · rw [if_pos hm]
  · rw [if_neg hm]

/-- Clearing `is_default` on the `U`-owned addresses other than `K` does
not change the default count of any other user `u`. -/
theorem countP_clear_map_ne {l : List Address} {U K u : Nat} (hne : u ≠ U) :
    (l.map (fun a => if a.user_id == U && a.id != K then { a with is_default := false }
        else a)).countP (fun a => a.user_id == u && a.is_default) =
      l.countP (fun a => a.user_id == u && a.is_default) := by
  rw [List.countP_map]
  apply countP_congrB
  intro x _
  simp only [Function.comp_apply]
  by_cases hc : (x.user_id == U && x.id != K) = true
  · have hxU : x.user_id = U := by
      have := (Bool.and_eq_true _ _).mp hc
      simpa using this.1
    have h1 : (x.user_id == u) = false := by
      rw [hxU]
      exact beq_eq_false_iff_ne.mpr (Ne.symm hne)
    rw [if_pos hc]
    show (x.user_id == u && false) = (x.user_id == u && x.is_default)
    rw [h1, Bool.false_and, Bool.false_and]
  · rw [if_neg hc]

/-- After the clearing map, a `U`-owned default can only be the kept id
`K`. -/
theorem clear_map_default_id {l : List Address} {U K : Nat} :
    ∀ x ∈ l.map (fun a => if a.user_id == U && a.id != K then { a with is_default := false }
        else a), (x.user_id == U && x.is_default) = true → (x.id == K) = true := by
  intro x hx hq
  obtain ⟨y, _, rfl⟩ := List.mem_map.mp hx
  by_cases hc : (y.user_id == U && y.id != K) = true
  · rw [if_pos hc] at hq
    simp at hq
  · rw [if_neg hc] at hq ⊢
    have hyU : (y.user_id == U) = true := ((Bool.and_eq_true _ _).mp hq).1
    by_cases hk : (y.id == K) = true
    · exact hk
    · refine absurd ?_ hc
      rw [Bool.and_eq_true]
      exact ⟨hyU, by simp [bne, hk]⟩

/-- The clearing map touches no id. -/
theorem countP_clear_map_id {l : List Address} {U K Q : Nat} :
    (l.map (fun a => if a.user_id == U && a.id != K then { a with is_default := false }
        else a)).countP (fun a => a.id == Q) = l.countP (fun a => a.id == Q) := by
  rw [List.countP_map]
  apply countP_congrB
  intro x _
  simp only [Function.comp_apply]
  by_cases hc : (x.user_id == U && x.id != K) = true
  · rw [if_pos hc]
  · rw [if_neg hc]

/-- C4 (amended): "at most one address per user has `is_default = true`"
is preserved by `create_address` (under store-assigned fresh ids), by
`delete_address`, and by `update_address` whenever the patch does not
re-home the address to another user (`patch.user_id = none`, under
duplicate-free ids); creating a default address flips `is_default` off on
every other address of that user and repoints the user's
`default_address_id` at the new address, and an update turning
`is_default` on propagates the same exclusivity keyed off the address's
`user_id`. (A patch that rewrites `user_id` can break the invariant —
see the counterexample.) -/
theorem address_default_spec (s : DB) (hinv : AtMostOneDefault s.addresses) :
    (∀ pl : AddressCreate, (∀ a ∈ s.addresses, a.id ≠ s.nextId) →
      AtMostOneDefault (create_address s pl).1.addresses) ∧
    (∀ aid : Nat, AtMostOneDefault (delete_address s aid).1.addresses) ∧
    (∀ aid patch, patch.user_id = none → (s.addresses.map (fun a => a.id)).Nodup →
      AtMostOneDefault (update_address s aid patch).1.addresses) ∧
    (∀ pl : AddressCreate, pl.is_default = true →
      (∀ a ∈ (create_address s pl).1.addresses,
        a.user_id = pl.user_id → a.id ≠ s.nextId → a.is_default = false) ∧
      (∀ u0, s.users.find? (fun x => x.id == pl.user_id) = some u0 →
        (create_address s pl).1.users.find? (fun x => x.id == pl.user_id) =
          some { u0 with default_address_id := some s.nextId })) ∧
    (∀ aid patch a0, (patch.is_default == some true) = true → patch.user_id = none →
      s.addresses.find? (fun a => a.id == aid) = some a0 →
      (∀ a ∈ (update_address s aid patch).1.addresses,
        a.user_id = a0.user_id → a.id ≠ aid → a.is_default = false) ∧
      (∀ u0, s.users.find? (fun x => x.id == a0.user_id) = some u0 →
        (update_address s aid patch).1.users.find? (fun x => x.id == a0.user_id) =
          some { u0 with default_address_id := some aid })) := by
  refine ⟨?_, ?_, ?_, ?_, ?_⟩
  · -- create preserves the invariant
    intro pl hfresh u
    by_cases hd : pl.is_default = true
    · rw [create_address_of_default hd]
      show defaultCount ((s.addresses ++ [newAddress s pl]).map (fun a =>
        if a.user_id == pl.user_id && a.id != (newAddress s pl).id then
          { a with is_default := false } else a)) u ≤ 1
      by_cases hu : u = pl.user_id
      · subst hu
        refine le_trans (List.countP_mono_left clear_map_default_id) ?_
        rw [countP_clear_map_id, List.countP_append]
        have h1 : s.addresses.countP (fun a => a.id == (newAddress s pl).id) = 0 :=
          List.countP_eq_zero.mpr (fun a ha => by simpa [newAddress] using hfresh a ha)
        have h2 : List.countP (fun a : Address => a.id == (newAddress s pl).id)
            [newAddress s pl] = 1 := by simp
        rw [h1, h2]
      · rw [defaultCount, countP_clear_map_ne hu, List.countP_append]
        have h1 : List.countP (fun a : Address => a.user_id == u && a.is_default)
            [newAddress s pl] = 0 := by
          simp [newAddress, beq_eq_false_iff_ne.mpr (fun h => hu h.symm)]
        rw [h1]
        simpa using hinv u
    · rw [create_address_of_not_default hd]
      show defaultCount (s.addresses ++ [newAddress s pl]) u ≤ 1
      have hdf : pl.is_default = false := by
        cases hb : pl.is_default with
        | false => rfl
        | true => exact absurd hb hd
      have h1 : List.countP (fun a : Address => a.user_id == u && a.is_default)
          [newAddress s pl] = 0 := by
        simp [newAddress, hdf]
      rw [defaultCount, List.countP_append, h1]
      simpa using hinv u
  · -- delete preserves the invariant
    intro aid u
    rw [delete_address_addresses]
    exact le_trans (List.Sublist.countP_le _ (deleteOneBy_sublist _ _)) (hinv u)
  · -- an update that does not re-home the address preserves the invariant
    intro aid patch hpu hnodup u
    by_cases he : patch.isEmpty = true
    · rw [update_address_of_empty he]
      exact hinv u
    · have he' : patch.isEmpty = false := by
        cases hb : patch.isEmpty with
        | false => rfl
        | true => exact absurd hb he
      by_cases hbeq : (patch.is_default == some true) = true
      · cases hfound : s.addresses.find? (fun a => a.id == aid) with
        | none =>
          rw [update_address_propagate_missing he' hbeq hfound]
          exact hinv u
        | some a0 =>
          rw [update_address_propagate he' hbeq hfound]
          have hdd : patch.is_default = some true := eq_of_beq hbeq
          have hU : (patch.apply a0).user_id = a0.user_id := by
            simp [AddressPatch.apply, hpu]
          show defaultCount ((updateOneBy s.addresses (fun a => a.id == aid)
            patch.apply).map (fun a =>
              if a.user_id == (patch.apply a0).user_id && a.id != aid then
                { a with is_default := false } else a)) u ≤ 1
          rw [hU]
          by_cases hu : u = a0.user_id
          · subst hu
            refine le_trans (List.countP_mono_left clear_map_default_id) ?_
            rw [countP_clear_map_id, countP_updateOneBy_of_find? hfound rfl]
            exact countP_key_le_one_of_nodup (fun a : Address => a.id) hnodup aid
          · rw [defaultCount, countP_clear_map_ne hu]
            have h1 : (a0.user_id == u) = false :=
              beq_eq_false_iff_ne.mpr (fun h => hu h.symm)
            rw [countP_updateOneBy_of_find? hfound ?_]
            · exact hinv u
            · show ((patch.apply a0).user_id == u && (patch.apply a0).is_default) =
                (a0.user_id == u && a0.is_default)
              rw [hU, h1, Bool.false_and, Bool.false_and]
      · have hbeq' : (patch.is_default == some true) = false := by
          cases hb : (patch.is_default == some true) with
          | false => rfl
          | true => exact absurd hb hbeq
        rw [update_address_no_propagate he' hbeq']
        show defaultCount (updateOneBy s.addresses (fun a => a.id == aid) patch.apply) u ≤ 1
        refine le_trans (countP_updateOneBy_le _ ?_) (hinv u)
        intro x _ hq
        have hxu : (patch.apply x).user_id = x.user_id := by
          simp [AddressPatch.apply, hpu]
        rcases hpd : patch.is_default with _ | b
        · have hxd : (patch.apply x).is_default = x.is_default := by
            simp [AddressPatch.apply, hpd]
          rw [hxu, hxd] at hq
          exact hq
        · cases b with
          | false =>
            have hxd : (patch.apply x).is_default = false := by
              simp [AddressPatch.apply, hpd]
            rw [hxd] at hq
            simp at hq
          | true =>
            rw [hpd] at hbeq
            exact absurd rfl hbeq
  · -- creating a default address: exclusivity and user bookkeeping
    intro pl hd
    constructor
    · intro a ha hau hane
      rw [create_address_of_default hd] at ha
      obtain ⟨y, _, rfl⟩ := List.mem_map.mp ha
      by_cases hc : (y.user_id == pl.user_id && y.id != (newAddress s pl).id) = true
      · rw [if_pos hc]
      · rw [if_neg hc] at hau hane ⊢
        refine absurd ?_ hc
        rw [Bool.and_eq_true]
        have h2 : (y.id == s.nextId) = false := beq_eq_false_iff_ne.mpr hane
        exact ⟨by simp [hau], by simp [bne, newAddress, h2]⟩
    · intro u0 hu0
      rw [create_address_of_default hd]
      exact find?_updateOneBy hu0 (fun y => rfl)
  · -- an update that turns `is_default` on: exclusivity and bookkeeping
    intro aid patch a0 hbeq hpu hfound
    have hdd : patch.is_default = some true := eq_of_beq hbeq
    have he' : patch.isEmpty = false := by
      simp [AddressPatch.isEmpty, hdd]
    have hU : (patch.apply a0).user_id = a0.user_id := by
      simp [AddressPatch.apply, hpu]
    constructor
    · intro a ha hau hane
      rw [update_address_propagate he' hbeq hfound] at ha
      obtain ⟨y, _, rfl⟩ := List.mem_map.mp ha
      by_cases hc : (y.user_id == (patch.apply a0).user_id && y.id != aid) = true
      · rw [if_pos hc]
      · rw [if_neg hc] at hau hane ⊢
        refine absurd ?_ hc
        rw [Bool.and_eq_true, hU]
        have h2 : (y.id == aid) = false := beq_eq_false_iff_ne.mpr hane
        exact ⟨by simp [hau], by simp [bne, h2]⟩
    · intro u0 hu0
      rw [update_address_propagate he' hbeq hfound]
      show (updateOneBy s.users (fun u => u.id == (patch.apply a0).user_id)
        (fun u => { u with default_address_id := some aid })).find?
          (fun x => x.id == a0.user_id) = some { u0 with default_address_id := some aid }
      rw [hU]
      exact find?_updateOneBy hu0 (fun y => rfl)

/-- C4 counterexample: in `dbC4` each of users 1 and 2 has exactly one
default address, so the invariant holds; patching address 10 with
`{"user_id": 2}` re-homes user 1's default to user 2 without touching any
`is_default` flag, leaving user 2 with two default addresses — an
`update_address` call thus does *not* always preserve the invariant. -/
theorem address_default_invariant_cex :
    AtMostOneDefault dbC4.addresses ∧
    ¬ AtMostOneDefault ((update_address dbC4 10 patchC4).1.addresses) := by
  constructor
  · exact (atMostOneDefaultB_iff _).mp (by decide)
  · intro h
    exact absurd (h 2) (by decide)

/-- C4 witness: in `dbC4W` (one user, one default address) the invariant
survives creating a second default address, deleting the address, and
patching `is_default` on. -/
theorem address_default_spec_witness :
    atMostOneDefaultB ((create_address dbC4W plC4).1.addresses) = true ∧
    atMostOneDefaultB ((delete_address dbC4W 5).1.addresses) = true ∧
    atMostOneDefaultB ((update_address dbC4W 5 patchC4W).1.addresses) = true := by
  have hinv : AtMostOneDefault dbC4W.addresses := (atMostOneDefaultB_iff _).mp (by decide)
  refine ⟨?_, ?_, ?_⟩
  · exact (atMostOneDefaultB_iff _).mpr
      ((address_default_spec dbC4W hinv).1 plC4 (by decide))
  · exact (atMostOneDefaultB_iff _).mpr ((address_default_spec dbC4W hinv).2.1 5)
  · exact (atMostOneDefaultB_iff _).mpr
      ((address_default_spec dbC4W hinv).2.2.1 5 patchC4W rfl (by decide))

/-! ## Orders: listing -/

/-- C9: `list_orders` returns exactly the user's orders (a permutation of
the `user_id` filter of the order collection), sorted newest-first by
creation stamp. -/
theorem list_orders_spec (s : DB) (uid : Nat) :
    List.Sorted createdDesc (list_orders s uid) ∧
    (list_orders s uid).Perm (s.orders.filter (fun o => o.user_id == uid)) ∧
    (∀ o ∈ list_orders s uid, o.user_id = uid) := by
  refine ⟨List.sorted_insertionSort createdDesc _,
    List.perm_insertionSort createdDesc _, ?_⟩
  intro o ho
  have := (List.perm_insertionSort createdDesc
    (s.orders.filter (fun o => o.user_id == uid))).mem_iff.mp ho
  simpa using (List.mem_filter.mp this).2

/-! ## Orders: tracking -/

theorem nextStatusOf_mem (st : String) : nextStatusOf st ∈ ORDER_STATUSES := by
  simp only [nextStatusOf]
  generalize (ORDER_STATUSES.indexOf? st).getD 0 = k
  show ORDER_STATUSES.getD (min (k + 1) 3) "" ∈ ORDER_STATUSES
  rcases Nat.lt_or_ge k 3 with hk | hk
  · have hmin : min (k + 1) 3 = k + 1 := Nat.min_eq_left (by omega)
    rw [hmin]
    interval_cases k <;> decide
  · have hmin : min (k + 1) 3 = 3 := Nat.min_eq_right (by omega)
    rw [hmin]
    decide

/-- C10: `track_order` computes `active_index` by an unguarded lookup of
the order's status in `ORDER_STATUSES`: when the stored status is one of
the four recognized strings the lookup succeeds and `active_index` is
that status's position; when it is not, `track_order` ends in an
unhandled internal error rather than a defined result — unlike
`advance_order`, which treats the unrecognized status as index 0 and
returns `"Packed"`. Statuses written by the pipeline itself always stay
in the list: creation writes the head of `ORDER_STATUSES` and
advancement writes `nextStatusOf`, a member of `ORDER_STATUSES`. -/
theorem track_order_spec (s : DB) (oid : Nat) :
    (∀ o, s.orders.find? (fun x => x.id == oid) = some o →
      (o.status ∈ ORDER_STATUSES →
        ∃ i, ORDER_STATUSES.indexOf? o.status = some i ∧
          track_order s oid =
            (s, .ok { status := o.status, steps := ORDER_STATUSES, active_index := i,
                      eta := o.eta, lat := 12.9716, lng := 77.5946 })) ∧
      (o.status ∉ ORDER_STATUSES →
        track_order s oid = (s, .error (.internalError "ValueError: not in list")) ∧
        (advance_order s oid).2 = .ok "Packed")) ∧
    ("Order Placed" ∈ ORDER_STATUSES ∧ ∀ st, nextStatusOf st ∈ ORDER_STATUSES) := by
  refine ⟨?_, by decide, nextStatusOf_mem⟩
  intro o h
  constructor
  · intro hmem
    cases hidx : ORDER_STATUSES.indexOf? o.status with
    | none =>
      exact absurd (List.indexOf?_eq_none_iff.mp hidx o.status hmem) (by simp)
    | some i =>
      exact ⟨i, rfl, by simp [track_order, h, hidx]⟩
  · intro hmem
    have hidx : ORDER_STATUSES.indexOf? o.status = none :=
      List.indexOf?_eq_none_iff.mpr
        (fun x hx hbeq => hmem ((eq_of_beq hbeq) ▸ hx))
    have hns : nextStatusOf o.status = "Packed" := by
      simp only [nextStatusOf, hidx]
      rfl
    refine ⟨by simp [track_order, h, hidx], ?_⟩
    rw [advance_order_of_find? h, hns]

/-- C10 witness: a store with a well-formed order and one with a corrupt
status string. -/
theorem track_order_spec_witness :
    (∃ i, ORDER_STATUSES.indexOf? orderC3.status = some i ∧
      track_order dbC3 20 =
        (dbC3, .ok { status := orderC3.status, steps := ORDER_STATUSES, active_index := i,
                     eta := orderC3.eta, lat := 12.9716, lng := 77.5946 })) ∧
    (track_order dbC10 20 = (dbC10, .error (.internalError "ValueError: not in list")) ∧
      (advance_order dbC10 20).2 = .ok "Packed") :=
  ⟨((track_order_spec dbC3 20).1 orderC3 rfl).1 (by decide),
   ((track_order_spec dbC10 20).1 orderC10 rfl).2 (by decide)⟩

/-- C7 witness: the three branches at concrete stores. -/
theorem update_cart_qty_spec_witness :
    (update_cart_qty ({ nextId := 3 } : DB) 1 0 =
      (({ nextId := 3 } : DB), .error (.invalidArgument "Quantity must be >= 1"))) ∧
    (update_cart_qty ({ nextId := 3 } : DB) 1 2 =
      (({ nextId := 3 } : DB), .error (.notFound "Cart item not found"))) ∧
    ((update_cart_qty dbC7 1 2).1.cartitems.find? (fun it => it.id == 1) =
      some { itemC7 with qty := 2 }) :=
  ⟨(update_cart_qty_spec ({ nextId := 3 } : DB) 1 0).1 (by decide),
   (update_cart_qty_spec ({ nextId := 3 } : DB) 1 2).2.1 (by decide) rfl,
   ((update_cart_qty_spec dbC7 1 2).2.2 itemC7 (by decide) rfl).2⟩

end VegHolic
